import Mathlib

/-!
Shallow embedding of `syncthing_stats.go`, a small tool that polls the
Syncthing REST API and prints line-protocol records to stdout.

Modelling choices:
* `time.Time` values are modelled as `Int` nanoseconds since the Unix epoch
  (the code only ever compares them with `time.Date(1970,1,1,...)`, i.e. 0,
  and subtracts that same instant).
* `float64` values are modelled as exact rationals `ℚ`.
* Each HTTP fetch followed by a JSON decode is abstracted by a
  `FetchResult` oracle: the request may fail (`reqError`), the decode may
  fail (`decodeError`), or a decoded value is produced (`ok`).  The
  lower-level `makeRequest` function is modelled separately and connected
  to this interface by `fetchAndDecode`.
* Go maps decoded from JSON are modelled as association lists (a map in
  some iteration order); Go's zero-value map lookup is `mapGetD`.
* Goroutine interleaving of output lines is not modelled: `mainRun`
  concatenates each handler's lines in handler order.  All claims below
  are insensitive to line order.
-/

/-- time.Time, as nanoseconds since the Unix epoch. -/
abbrev GoTime := Int

/-- time.Second, in nanoseconds. -/
def timeSecond : Int := 1000000000

/-- time.Date(1970, 1, 1, 0, 0, 0, 0, time.UTC), the cut-off used by the
connections and devices handlers. -/
def cutOffTime : GoTime := 0

/-- Duration.Seconds(): nanoseconds to (exact, rational) seconds. -/
def durSeconds (d : Int) : ℚ := (d : ℚ) / 1000000000

/-- FolderConfig from syncthing_stats.go. -/
structure FolderConfig where
  id : String
  label : String
  rescanIntervalS : Int
  type : String
  deriving DecidableEq

/-- FolderStats from syncthing_stats.go. -/
structure FolderStats where
  errors : Int
  globalBytes : Int
  globalDeleted : Int
  globalDirectories : Int
  globalFiles : Int
  globalSymlinks : Int
  globalTotalItems : Int
  inSyncBytes : Int
  inSyncFiles : Int
  localBytes : Int
  localDeleted : Int
  localDirectories : Int
  localFiles : Int
  localSymlinks : Int
  localTotalItems : Int
  needBytes : Int
  needDeletes : Int
  needDirectories : Int
  needFiles : Int
  needSymlinks : Int
  needTotalItems : Int
  pullErrors : Int
  deriving DecidableEq

/-- Report from syncthing_stats.go (float64 fields as ℚ). -/
structure Report where
  numFolders : Int
  numDevices : Int
  totalFiles : Int
  totalMiB : Int
  maxFolderMiB : Int
  sha256Perf : ℚ
  hashPerf : ℚ
  uptime : Int
  memoryUsageMiB : Int
  deriving DecidableEq

/-- ConnectionStatItem from syncthing_stats.go. -/
structure ConnectionStatItem where
  address : String
  atTime : GoTime
  clientVersion : String
  connected : Bool
  crypto : String
  inBytesTotal : Int
  outBytesTotal : Int
  paused : Bool
  type : String
  deriving DecidableEq

/-- Connections from syncthing_stats.go; the decoded map is an association
list in iteration order. -/
structure Connections where
  total : ConnectionStatItem
  connections : List (String × ConnectionStatItem)
  deriving DecidableEq

/-- DeviceConfig from syncthing_stats.go. -/
structure DeviceConfig where
  deviceID : String
  name : String
  deriving DecidableEq

/-- DeviceStatItem from syncthing_stats.go. -/
structure DeviceStatItem where
  lastSeen : GoTime
  lastConnectionDurationS : ℚ
  deriving DecidableEq

/-- Devices (map deviceId -> DeviceStatItem) from syncthing_stats.go. -/
abbrev Devices := List (String × DeviceStatItem)

/-- One HTTP-fetch-plus-JSON-decode step, as seen by a handler: the request
itself may fail, the body may fail to decode, or a value is decoded. -/
inductive FetchResult (α : Type) where
  | reqError (msg : String)
  | decodeError (msg : String)
  | ok (value : α)

/-- strings.Replace(s, " ", "\\ ", -1) at the character-list level. -/
def escapeSpacesList : List Char → List Char
  | [] => []
  | c :: cs => if c = ' ' then '\\' :: ' ' :: escapeSpacesList cs else c :: escapeSpacesList cs

/-- strings.Replace(s, " ", "\\ ", -1). -/
def escapeSpaces (s : String) : String := String.mk (escapeSpacesList s.data)

/-- One output line, holding exactly the values the corresponding
fmt.Printf call receives (tag values after whatever escaping the call
site applies). -/
inductive OutLine where
  | connectionTotals (numberOfConnections inBytes outBytes pausedFlag : Int)
  | connection (clientId : String) (connected pausedFlag inBytes outBytes : Int)
  | deviceTotals (numberOfDevices : Int)
  | device (deviceId deviceName : String) (lastSeen lastConnectionDuration : ℚ)
  | folder (folderId folderLabel : String) (rescanInterval : Int) (stats : FolderStats)
  | report (stats : Report)
  deriving DecidableEq

/-- Whether a line is a syncthing_report line. -/
def isReportLine : OutLine → Bool
  | .report _ => true
  | _ => false

/-- Whether a line is a tagged syncthing_connection line. -/
def isConnectionLine : OutLine → Bool
  | .connection _ _ _ _ _ => true
  | _ => false

/-- Whether a line is a tagged syncthing_device line. -/
def isDeviceLine : OutLine → Bool
  | .device _ _ _ _ => true
  | _ => false

/-- Result of one handler: the number of HTTP calls it attempted, the URLs
of the per-folder status fetches it spawned (folders handler only), its
stdout lines, the messages it wrote to stderr itself, and the error it
returned to wrapHandler. -/
structure HandlerResult where
  calls : Nat
  statusRequests : List String := []
  stdout : List OutLine
  stderr : List String := []
  err : Option String := none

/-- The syncthing_connection line printed for one entry of the
connections map. -/
def connectionLine (clientId : String) (c : ConnectionStatItem) : OutLine :=
  OutLine.connection clientId (if c.connected then 1 else 0) (if c.paused then 1 else 0)
    c.inBytesTotal c.outBytesTotal

/-- handleSystemConnections from syncthing_stats.go. -/
def handleSystemConnections (fetch : FetchResult Connections) : HandlerResult :=
  match fetch with
  | .reqError msg => { calls := 1, stdout := [], err := some msg }
  | .decodeError msg => { calls := 1, stdout := [], err := some ("invalid response body: " ++ msg) }
  | .ok stats =>
    let numberOfConnections : Int := stats.connections.length
    let pausedFlag : Int := if stats.total.paused then 1 else 0
    let perPeer := stats.connections.filterMap (fun p =>
      if cutOffTime < p.2.atTime then some (connectionLine p.1 p.2) else none)
    { calls := 1
      stdout := OutLine.connectionTotals numberOfConnections stats.total.inBytesTotal
        stats.total.outBytesTotal pausedFlag :: perPeer }

/-- The deviceNames map: built by inserting each config in order, later
entries overwriting earlier ones (modelled by prepending, so that lookup
finds the most recent insertion first). -/
def buildDeviceNames (configs : List DeviceConfig) : List (String × String) :=
  configs.foldl (fun m d => (d.deviceID, d.name) :: m) []

/-- Go map read with zero-value default: deviceNames[deviceId]. -/
def mapGetD (m : List (String × String)) (k : String) : String :=
  (m.lookup k).getD ""

/-- The syncthing_device line printed for one entry of the device stats
map: last_seen is lastSeen.Sub(cutOffTime).Seconds(), the name is looked
up and space-escaped. -/
def deviceLine (names : List (String × String)) (deviceId : String) (d : DeviceStatItem) : OutLine :=
  OutLine.device deviceId (escapeSpaces (mapGetD names deviceId))
    (durSeconds (d.lastSeen - cutOffTime)) d.lastConnectionDurationS

/-- handleDevices from syncthing_stats.go: fetch device configs, build the
name map, fetch device stats, print totals, then one tagged line per
device seen after the epoch. -/
def handleDevices (fetchConfigs : FetchResult (List DeviceConfig))
    (fetchStats : FetchResult Devices) : HandlerResult :=
  match fetchConfigs with
  | .reqError msg => { calls := 1, stdout := [], err := some msg }
  | .decodeError msg => { calls := 1, stdout := [], err := some ("invalid response body: " ++ msg) }
  | .ok deviceConfigs =>
    let deviceNames := buildDeviceNames deviceConfigs
    match fetchStats with
    | .reqError msg => { calls := 2, stdout := [], err := some msg }
    | .decodeError msg => { calls := 2, stdout := [], err := some ("invalid response body: " ++ msg) }
    | .ok stats =>
      let numberOfDevices : Int := stats.length
      let perDevice := stats.filterMap (fun p =>
        if cutOffTime < p.2.lastSeen then some (deviceLine deviceNames p.1 p.2) else none)
      { calls := 2, stdout := OutLine.deviceTotals numberOfDevices :: perDevice }

/-- The syncthing_folder line: folder id verbatim, label space-escaped,
rescan interval, and every FolderStats counter. -/
def folderLine (folderConfig : FolderConfig) (stats : FolderStats) : OutLine :=
  OutLine.folder folderConfig.id (escapeSpaces folderConfig.label)
    folderConfig.rescanIntervalS stats

/-- The URL of one folder's status fetch. -/
def folderStatusUrl (folderConfig : FolderConfig) : String :=
  "rest/db/status?folder=" ++ folderConfig.id

/-- handleFolderStats from syncthing_stats.go: fetch one folder's status;
on failure write to stderr and print nothing, on success print the folder
line.  Returns (stdout lines, stderr messages). -/
def handleFolderStats (folderConfig : FolderConfig) (fetch : FetchResult FolderStats) :
    List OutLine × List String :=
  match fetch with
  | .reqError msg => ([], ["Unable to read status for " ++ folderConfig.id ++ ": " ++ msg])
  | .decodeError msg => ([], ["invalid response body: " ++ msg])
  | .ok stats => ([folderLine folderConfig stats], [])

/-- handleFolders from syncthing_stats.go: fetch and decode the folder
list, then spawn one handleFolderStats per folder.  The i-th folder's
status fetch outcome is `statusFetch i`. -/
def handleFolders (fetchFolders : FetchResult (List FolderConfig))
    (statusFetch : Nat → FetchResult FolderStats) : HandlerResult :=
  match fetchFolders with
  | .reqError msg => { calls := 1, stdout := [], err := some msg }
  | .decodeError msg => { calls := 1, stdout := [], err := some ("invalid response body: " ++ msg) }
  | .ok folderConfig =>
    let perFolder := folderConfig.enum.map (fun p => handleFolderStats p.2 (statusFetch p.1))
    { calls := 1 + folderConfig.length
      statusRequests := folderConfig.map folderStatusUrl
      stdout := (perFolder.map Prod.fst).flatten
      stderr := (perFolder.map Prod.snd).flatten }

/-- handleReport from syncthing_stats.go. -/
def handleReport (fetch : FetchResult Report) : HandlerResult :=
  match fetch with
  | .reqError msg => { calls := 1, stdout := [], err := some msg }
  | .decodeError msg => { calls := 1, stdout := [], err := some ("invalid response body: " ++ msg) }
  | .ok stats => { calls := 1, stdout := [OutLine.report stats] }

/-- wrapHandler from syncthing_stats.go: a handler's returned error is
written to stderr with the prefix "Failed: " and swallowed. -/
def wrapHandler (r : HandlerResult) : HandlerResult :=
  match r.err with
  | some msg => { r with stderr := r.stderr ++ ["Failed: " ++ msg], err := none }
  | none => r

/-- The outcomes of every fetch an invocation may perform. -/
structure WorldOracle where
  folders : FetchResult (List FolderConfig)
  folderStatus : Nat → FetchResult FolderStats
  systemConnections : FetchResult Connections
  deviceConfigs : FetchResult (List DeviceConfig)
  deviceStats : FetchResult Devices
  report : FetchResult Report

/-- Observable result of one whole invocation. -/
structure MainResult where
  exitCode : Int
  println : List String
  stdout : List OutLine
  stderr : List String
  calls : Nat

/-- main from syncthing_stats.go: an empty -apikey prints "Invalid API
key" and exits 1 before any HTTP work; otherwise the three handlers (plus
handleReport when -use-full-report is set) run and the process exits 0. -/
def mainRun (apiKeyFlag : String) (useFullReportFlag : Bool) (w : WorldOracle) : MainResult :=
  if apiKeyFlag = "" then
    { exitCode := 1, println := ["Invalid API key"], stdout := [], stderr := [], calls := 0 }
  else
    let allHandlers := [wrapHandler (handleFolders w.folders w.folderStatus),
                        wrapHandler (handleSystemConnections w.systemConnections),
                        wrapHandler (handleDevices w.deviceConfigs w.deviceStats)]
    let allHandlers := if useFullReportFlag
      then allHandlers ++ [wrapHandler (handleReport w.report)] else allHandlers
    { exitCode := 0
      println := []
      stdout := (allHandlers.map HandlerResult.stdout).flatten
      stderr := (allHandlers.map HandlerResult.stderr).flatten
      calls := (allHandlers.map HandlerResult.calls).sum }

/-- An HTTP request as makeRequest builds it. -/
structure HttpRequest where
  method : String
  url : String
  headers : List (String × String)
  deriving DecidableEq

/-- An HTTP response: status code and raw body. -/
structure HttpResponse where
  statusCode : Int
  body : String
  deriving DecidableEq

/-- Outcome of client.Do on a given request. -/
inductive TransportOutcome where
  | failure (msg : String)
  | success (resp : HttpResponse)

/-- http.NewRequest: fails iff the construction oracle says so. -/
def newRequest (method url : String) (constructErr : Option String) :
    Except String HttpRequest :=
  match constructErr with
  | some e => .error e
  | none => .ok { method := method, url := url, headers := [] }

/-- req.Header.Add(k, v). -/
def headerAdd (req : HttpRequest) (k v : String) : HttpRequest :=
  { req with headers := req.headers ++ [(k, v)] }

/-- Result of makeRequest together with the trace of attempted sends, each
tagged with the client timeout (nanoseconds) it carried. -/
structure MakeRequestTrace where
  result : Except String HttpResponse
  sends : List (Int × HttpRequest)

/-- makeRequest from syncthing_stats.go: one GET to "{server}/{url}" with
the X-API-Key header and a 2-second client timeout; construction and
transport failures are wrapped with distinct prefixes; no retries. -/
def makeRequest (server apiKey url : String) (constructErr : Option String)
    (transportOf : HttpRequest → TransportOutcome) : MakeRequestTrace :=
  let clientTimeout : Int := 2 * timeSecond
  match newRequest "GET" (server ++ "/" ++ url) constructErr with
  | .error err => { result := .error ("unable to create HTTP request: " ++ err), sends := [] }
  | .ok req =>
    let req := headerAdd req "X-API-Key" apiKey
    match transportOf req with
    | .failure err =>
      { result := .error ("HTTP request failed: " ++ err), sends := [(clientTimeout, req)] }
    | .success resp => { result := .ok resp, sends := [(clientTimeout, req)] }

/-- The request makeRequest sends when construction succeeds. -/
def builtRequest (server apiKey url : String) : HttpRequest :=
  headerAdd { method := "GET", url := server ++ "/" ++ url, headers := [] } "X-API-Key" apiKey

/-- The fetch-then-decode pattern every handler uses: makeRequest, then
json.NewDecoder(resp.Body).Decode on the body of whatever response came
back. -/
def fetchAndDecode {α : Type} (server apiKey url : String) (constructErr : Option String)
    (transportOf : HttpRequest → TransportOutcome) (decode : String → Except String α) :
    FetchResult α :=
  match (makeRequest server apiKey url constructErr transportOf).result with
  | .error msg => .reqError msg
  | .ok resp =>
    match decode resp.body with
    | .error e => .decodeError e
    | .ok v => .ok v

/-! Concrete inputs used by witnesses and counterexamples. -/

/-- A sample aggregate connection entry. -/
def exTotalStat : ConnectionStatItem :=
  ⟨"", 0, "", false, "", 100, 200, false, ""⟩

/-- A sample per-peer connection updated after the epoch. -/
def exConnStat : ConnectionStatItem :=
  ⟨"tcp://10.0.0.2:22000", 5, "v1.27.0", true, "tls1.3", 10, 20, false, "tcp-client"⟩

/-- A sample per-peer connection never updated (at = epoch). -/
def exConnStale : ConnectionStatItem :=
  ⟨"", 0, "", false, "", 0, 0, false, ""⟩

/-- A sample connections snapshot with one live and one stale peer. -/
def exConnections : Connections :=
  ⟨exTotalStat, [("peer1", exConnStat), ("peer2", exConnStale)]⟩

/-- A connections snapshot whose peer id contains a space. -/
def exSpacedConnections : Connections :=
  ⟨exTotalStat, [("a b", exConnStat)]⟩

/-- A sample device stat seen after the epoch (1.5s, duration 42s). -/
def exDeviceStat : DeviceStatItem := ⟨1500000000, 42⟩

/-- A sample device stat never seen (lastSeen = epoch). -/
def exDeviceStale : DeviceStatItem := ⟨0, 7⟩

/-- A sample device stat seen after the epoch for an unnamed device. -/
def exDeviceStat2 : DeviceStatItem := ⟨2500000000, 9⟩

/-- A sample device configuration list naming only dev1. -/
def exDeviceCfgs : List DeviceConfig := [⟨"dev1", "My Node"⟩]

/-- A sample device stats map. -/
def exDevices : Devices :=
  [("dev1", exDeviceStat), ("dev2", exDeviceStale), ("dev3", exDeviceStat2)]

/-- A sample folder configuration. -/
def exFolderA : FolderConfig := ⟨"a", "Pics", 60, "sendreceive"⟩

/-- Another sample folder configuration, with a spaced label. -/
def exFolderB : FolderConfig := ⟨"b", "My Docs", 3600, "sendonly"⟩

/-- A sample decoded folder status. -/
def exFolderStats : FolderStats :=
  ⟨1, 2, 3, 4, 5, 6, 7, 8, 9, 10, 11, 12, 13, 14, 15, 16, 17, 18, 19, 20, 21, 22⟩

/-- A per-folder status oracle where the first folder's fetch fails and
every other folder's fetch succeeds. -/
def exStatusFetch : Nat → FetchResult FolderStats :=
  fun i => if i = 0 then .reqError "connection refused" else .ok exFolderStats

/-- A sample report. -/
def exReport : Report := ⟨3, 4, 100, 2048, 1024, 123 / 2, 456 / 7, 3600, 85⟩

/-- A world where every fetch succeeds except the first folder's status. -/
def exWorld : WorldOracle :=
  ⟨.ok [exFolderA, exFolderB], exStatusFetch, .ok exConnections, .ok exDeviceCfgs,
    .ok exDevices, .ok exReport⟩

/-- exWorld, but the report endpoint is unreachable. -/
def exWorldReportFail : WorldOracle := { exWorld with report := .reqError "connection refused" }

/-- exWorld, but the connections endpoint is unreachable. -/
def exWorldConnFail : WorldOracle := { exWorld with systemConnections := .reqError "boom" }

/-- A transport oracle always answering 403 with body "body". -/
def exNetOk : HttpRequest → TransportOutcome := fun _ => .success ⟨403, "body"⟩

/-- A transport oracle that always times out. -/
def exNetFail : HttpRequest → TransportOutcome := fun _ => .failure "timeout"

/-- A sample decoder returning the body length. -/
def exDecode : String → Except String Int := fun b => .ok (b.length : Int)

/-! Helper lemmas (shared by several claims). -/

/-- In an association list whose keys are pairwise distinct, a key
determines its value. -/
theorem keys_nodup_mem_unique {α β : Type} (l : List (α × β)) (k : α) (a b : β)
    (hnd : (l.map Prod.fst).Nodup) (ha : (k, a) ∈ l) (hb : (k, b) ∈ l) : a = b := by
  induction l with
  | nil => cases ha
  | cons p t ih =>
    rw [List.map_cons, List.nodup_cons] at hnd
    rcases List.mem_cons.mp ha with h1 | h1 <;> rcases List.mem_cons.mp hb with h2 | h2
    · exact congrArg Prod.snd (h1.trans h2.symm)
    · have hmm : k ∈ t.map Prod.fst := List.mem_map.mpr ⟨(k, b), h2, rfl⟩
      have hk : k = p.1 := by rw [← h1]
      rw [hk] at hmm
      exact absurd hmm hnd.1
    · have hmm : k ∈ t.map Prod.fst := List.mem_map.mpr ⟨(k, a), h1, rfl⟩
      have hk : k = p.1 := by rw [← h2]
      rw [hk] at hmm
      exact absurd hmm hnd.1
    · exact ih hnd.2 h1 h2

/-- Space escaping distributes over list append. -/
theorem escapeSpacesList_append (l₁ l₂ : List Char) :
    escapeSpacesList (l₁ ++ l₂) = escapeSpacesList l₁ ++ escapeSpacesList l₂ := by
  induction l₁ with
  | nil => rfl
  | cons c cs ih => by_cases h : c = ' ' <;> simp [escapeSpacesList, h, ih]

/-- Space escaping is the identity on space-free character lists. -/
theorem escapeSpacesList_no_space (l : List Char) (h : ∀ c ∈ l, c ≠ ' ') :
    escapeSpacesList l = l := by
  induction l with
  | nil => rfl
  | cons c cs ih =>
    rw [escapeSpacesList, if_neg (h c (List.mem_cons_self c cs)), 
      ih fun x hx => h x (List.mem_cons_of_mem c hx)]

/-- Space escaping distributes over string append. -/
theorem escapeSpaces_append (s t : String) :
    escapeSpaces (s ++ t) = escapeSpaces s ++ escapeSpaces t :=
  String.ext (by simp [escapeSpaces, String.data_append, escapeSpacesList_append])

/-- Space escaping is the identity on space-free strings. -/
theorem escapeSpaces_no_space (s : String) (h : ∀ c ∈ s.data, c ≠ ' ') :
    escapeSpaces s = s :=
  String.ext (by simp [escapeSpaces, escapeSpacesList_no_space s.data h])

/-- Folding fresh device configurations over the name map leaves absent
keys unresolved. -/
theorem buildDeviceNames_foldl_absent (configs : List DeviceConfig) (k : String)
    (h : ∀ c ∈ configs, c.deviceID ≠ k) (acc : List (String × String)) :
    (configs.foldl (fun m d => (d.deviceID, d.name) :: m) acc).lookup k = acc.lookup k := by
  induction configs generalizing acc with
  | nil => rfl
  | cons d t ih =>
    rw [List.foldl_cons, ih (fun c hc => h c (List.mem_cons_of_mem d hc))]
    have hd : (k == d.deviceID) = false :=
      beq_eq_false_iff_ne.mpr fun hk => h d (List.mem_cons_self d t) hk.symm
    simp [List.lookup, hd]

/-- A device id that appears in no configuration resolves to the empty
name. -/
theorem mapGetD_buildDeviceNames_absent (configs : List DeviceConfig) (k : String)
    (h : ∀ c ∈ configs, c.deviceID ≠ k) :
    mapGetD (buildDeviceNames configs) k = "" := by
  rw [mapGetD, buildDeviceNames, buildDeviceNames_foldl_absent configs k h]
  rfl

/-- Unfolding of the connections handler on a decoded snapshot. -/
theorem handleSystemConnections_ok_stdout (stats : Connections) :
    (handleSystemConnections (.ok stats)).stdout =
      OutLine.connectionTotals (stats.connections.length : Int) stats.total.inBytesTotal
          stats.total.outBytesTotal (if stats.total.paused then 1 else 0) ::
        stats.connections.filterMap (fun p =>
          if cutOffTime < p.2.atTime then some (connectionLine p.1 p.2) else none) := rfl

/-- Unfolding of the devices handler on decoded configs and stats. -/
theorem handleDevices_ok_stdout (cfgs : List DeviceConfig) (stats : Devices) :
    (handleDevices (.ok cfgs) (.ok stats)).stdout =
      OutLine.deviceTotals (stats.length : Int) ::
        stats.filterMap (fun p =>
          if cutOffTime < p.2.lastSeen then
            some (deviceLine (buildDeviceNames cfgs) p.1 p.2)
          else none) := rfl

/-- C2: in the connections handler, a per-peer entry of the decoded
connections map yields a tagged syncthing_connection record if and only
if its `at` timestamp is strictly after 1970-01-01T00:00:00Z UTC. -/
theorem handleSystemConnections_connection_iff (stats : Connections) (clientId : String)
    (c : ConnectionStatItem)
    (hkeys : (stats.connections.map Prod.fst).Nodup)
    (hmem : (clientId, c) ∈ stats.connections) :
    connectionLine clientId c ∈ (handleSystemConnections (.ok stats)).stdout ↔
      cutOffTime < c.atTime := by
  rw [handleSystemConnections_ok_stdout, List.mem_cons]
  constructor
  · rintro (h | h)
    · simp [connectionLine] at h
    · rcases List.mem_filterMap.mp h with ⟨⟨p1, p2⟩, pmem, hp⟩
      by_cases hat : cutOffTime < p2.atTime
      · rw [if_pos hat] at hp
        have hinj := Option.some.inj hp
        simp only [connectionLine, OutLine.connection.injEq] at hinj
        have hpc : p2 = c :=
          keys_nodup_mem_unique stats.connections clientId p2 c hkeys (hinj.1 ▸ pmem) hmem
        rw [← hpc]
        exact hat
      · rw [if_neg hat] at hp
        cases hp
  · intro hat
    exact Or.inr (List.mem_filterMap.mpr ⟨(clientId, c), hmem, by rw [if_pos hat]⟩)

/-- Witness for C2: in a concrete snapshot, peer1 (at = 5ns after the
epoch) has its record emitted. -/
theorem handleSystemConnections_connection_iff_witness :
    connectionLine "peer1" exConnStat ∈ (handleSystemConnections (.ok exConnections)).stdout :=
  (handleSystemConnections_connection_iff exConnections "peer1" exConnStat (by decide)
    (by decide)).mpr (by decide)

/-- C3: in the devices handler, a per-device entry of the decoded stats
map yields a tagged syncthing_device record if and only if its lastSeen
timestamp is strictly after the Unix epoch, and every emitted record's
last_seen field is (lastSeen - epoch) in seconds while its
last_connection_duration field is the decoded lastConnectionDurationS. -/
theorem handleDevices_device_iff_and_fields (cfgs : List DeviceConfig) (stats : Devices)
    (deviceId : String) (d : DeviceStatItem)
    (hkeys : (stats.map Prod.fst).Nodup) (hmem : (deviceId, d) ∈ stats) :
    (deviceLine (buildDeviceNames cfgs) deviceId d ∈
        (handleDevices (.ok cfgs) (.ok stats)).stdout ↔ cutOffTime < d.lastSeen) ∧
      ∀ l ∈ (handleDevices (.ok cfgs) (.ok stats)).stdout,
        l = OutLine.deviceTotals (stats.length : Int) ∨
        ∃ q ∈ stats, cutOffTime < q.2.lastSeen ∧
          l = OutLine.device q.1 (escapeSpaces (mapGetD (buildDeviceNames cfgs) q.1))
                (durSeconds (q.2.lastSeen - cutOffTime)) q.2.lastConnectionDurationS := by
  constructor
  · rw [handleDevices_ok_stdout, List.mem_cons]
    constructor
    · rintro (h | h)
      · simp [deviceLine] at h
      · rcases List.mem_filterMap.mp h with ⟨⟨q1, q2⟩, qmem, hq⟩
        by_cases hls : cutOffTime < q2.lastSeen
        · rw [if_pos hls] at hq
          have hinj := Option.some.inj hq
          simp only [deviceLine, OutLine.device.injEq] at hinj
          have hqd : q2 = d :=
            keys_nodup_mem_unique stats deviceId q2 d hkeys (hinj.1 ▸ qmem) hmem
          rw [← hqd]
          exact hls
        · rw [if_neg hls] at hq
          cases hq
    · intro hls
      exact Or.inr (List.mem_filterMap.mpr ⟨(deviceId, d), hmem, by rw [if_pos hls]⟩)
  · intro l hl
    rw [handleDevices_ok_stdout, List.mem_cons] at hl
    rcases hl with h | h
    · exact Or.inl h
    · rcases List.mem_filterMap.mp h with ⟨⟨q1, q2⟩, qmem, hq⟩
      by_cases hls : cutOffTime < q2.lastSeen
      · rw [if_pos hls] at hq
        refine Or.inr ⟨(q1, q2), qmem, hls, ?_⟩
        rw [← Option.some.inj hq, deviceLine]
      · rw [if_neg hls] at hq
        cases hq

/-- Witness for C3: in a concrete stats map, dev1 (seen 1.5s after the
epoch) has its record emitted. -/
theorem handleDevices_device_iff_and_fields_witness :
    deviceLine (buildDeviceNames exDeviceCfgs) "dev1" exDeviceStat ∈
      (handleDevices (.ok exDeviceCfgs) (.ok exDevices)).stdout :=
  ((handleDevices_device_iff_and_fields exDeviceCfgs exDevices "dev1" exDeviceStat (by decide)
    (by decide)).1).mpr (by decide)

/-- C8: a device id present in the stats map but absent from the
device-name map is emitted with an empty device_name tag, and the handler
neither fails nor skips it. -/
theorem handleDevices_missing_name_empty (cfgs : List DeviceConfig) (stats : Devices)
    (deviceId : String) (d : DeviceStatItem)
    (hmem : (deviceId, d) ∈ stats) (hseen : cutOffTime < d.lastSeen)
    (habsent : ∀ c ∈ cfgs, c.deviceID ≠ deviceId) :
    OutLine.device deviceId "" (durSeconds (d.lastSeen - cutOffTime)) d.lastConnectionDurationS
        ∈ (handleDevices (.ok cfgs) (.ok stats)).stdout ∧
      (handleDevices (.ok cfgs) (.ok stats)).err = none := by
  constructor
  · rw [handleDevices_ok_stdout, List.mem_cons]
    refine Or.inr (List.mem_filterMap.mpr ⟨(deviceId, d), hmem, ?_⟩)
    rw [if_pos hseen, deviceLine, mapGetD_buildDeviceNames_absent cfgs deviceId habsent]
    rfl
  · rfl

/-- Witness for C8: in a concrete run, dev3 appears in the stats map but
in no configuration, and is emitted with an empty name. -/
theorem handleDevices_missing_name_empty_witness :
    OutLine.device "dev3" ""
        (durSeconds (exDeviceStat2.lastSeen - cutOffTime)) exDeviceStat2.lastConnectionDurationS
        ∈ (handleDevices (.ok exDeviceCfgs) (.ok exDevices)).stdout ∧
      (handleDevices (.ok exDeviceCfgs) (.ok exDevices)).err = none :=
  handleDevices_missing_name_empty exDeviceCfgs exDevices "dev3" exDeviceStat2 (by decide)
    (by decide) (by decide)

/-- C10: the aggregate number_of_connections and number_of_devices fields
count every entry of the decoded maps (pre-epoch entries included), so
each is an upper bound on the number of tagged records emitted. -/
theorem totals_count_all_entries (conn : Connections) (cfgs : List DeviceConfig)
    (stats : Devices) :
    (handleSystemConnections (.ok conn)).stdout.head? =
        some (OutLine.connectionTotals (conn.connections.length : Int) conn.total.inBytesTotal
          conn.total.outBytesTotal (if conn.total.paused then 1 else 0)) ∧
      (handleSystemConnections (.ok conn)).stdout.countP isConnectionLine ≤
        conn.connections.length ∧
      (handleDevices (.ok cfgs) (.ok stats)).stdout.head? =
        some (OutLine.deviceTotals (stats.length : Int)) ∧
      (handleDevices (.ok cfgs) (.ok stats)).stdout.countP isDeviceLine ≤ stats.length := by
  refine ⟨rfl, ?_, rfl, ?_⟩
  · rw [handleSystemConnections_ok_stdout, List.countP_cons_of_neg _ _ (by simp [isConnectionLine])]
    exact le_trans (List.countP_le_length _) (List.length_filterMap_le _ _)
  · rw [handleDevices_ok_stdout, List.countP_cons_of_neg _ _ (by simp [isDeviceLine])]
    exact le_trans (List.countP_le_length _) (List.length_filterMap_le _ _)

/-- The concatenated stdout of the per-folder status handlers keeps
exactly the lines of the folders whose status fetch and decode
succeeded. -/
theorem folderStats_flatten (statusFetch : Nat → FetchResult FolderStats)
    (l : List (Nat × FolderConfig)) :
    ((l.map (fun p => handleFolderStats p.2 (statusFetch p.1))).map Prod.fst).flatten =
      l.filterMap (fun p =>
        match statusFetch p.1 with
        | .ok stats => some (folderLine p.2 stats)
        | _ => none) := by
  induction l with
  | nil => rfl
  | cons p t ih =>
    rw [List.map_cons, List.map_cons, List.flatten_cons, List.filterMap_cons, ih]
    cases hf : statusFetch p.1 <;> simp [handleFolderStats, hf]

/-- C1: on a decoded folder list of size N the folders handler attempts
exactly N status fetches (one per folder, at that folder's URL), its
stdout holds exactly the records of the folders whose own fetch and
decode succeeded, and a folder whose own fetch succeeded has its record
emitted regardless of any other folder's failure. -/
theorem handleFolders_fanout (folders : List FolderConfig)
    (statusFetch : Nat → FetchResult FolderStats) :
    (handleFolders (.ok folders) statusFetch).statusRequests =
        folders.map folderStatusUrl ∧
      (handleFolders (.ok folders) statusFetch).statusRequests.length = folders.length ∧
      (handleFolders (.ok folders) statusFetch).stdout =
        folders.enum.filterMap (fun p =>
          match statusFetch p.1 with
          | .ok stats => some (folderLine p.2 stats)
          | _ => none) ∧
      ∀ (i : Nat) (c : FolderConfig) (stats : FolderStats),
        folders[i]? = some c → statusFetch i = .ok stats →
        folderLine c stats ∈ (handleFolders (.ok folders) statusFetch).stdout := by
  have hstdout : (handleFolders (.ok folders) statusFetch).stdout =
      folders.enum.filterMap (fun p =>
        match statusFetch p.1 with
        | .ok stats => some (folderLine p.2 stats)
        | _ => none) := folderStats_flatten statusFetch folders.enum
  refine ⟨rfl, List.length_map folders folderStatusUrl, hstdout, ?_⟩
  intro i c stats hget hfetch
  rw [hstdout]
  exact List.mem_filterMap.mpr
    ⟨(i, c), List.mk_mem_enum_iff_getElem?.mpr hget, by rw [hfetch]⟩

/-- Witness for C1: with two folders where the first folder's status
fetch fails, the second folder's record is still emitted, and exactly two
status fetches were attempted. -/
theorem handleFolders_fanout_witness :
    folderLine exFolderB exFolderStats ∈
      (handleFolders (.ok [exFolderA, exFolderB]) exStatusFetch).stdout ∧
    (handleFolders (.ok [exFolderA, exFolderB]) exStatusFetch).statusRequests.length = 2 :=
  ⟨(handleFolders_fanout [exFolderA, exFolderB] exStatusFetch).2.2.2 1 exFolderB exFolderStats
      (by decide) rfl,
    (handleFolders_fanout [exFolderA, exFolderB] exStatusFetch).2.1⟩

/-- C4 counterexample: a peer id containing a space is emitted verbatim in
its syncthing_connection record; the space is not replaced by
backslash-space. -/
theorem clientId_space_not_escaped :
    OutLine.connection "a b" 1 0 10 20 ∈
        (handleSystemConnections (.ok exSpacedConnections)).stdout ∧
      escapeSpaces "a b" = "a\\ b" ∧ "a b" ≠ "a\\ b" := by decide

/-- C4 (amended): only the folder-label and device-name tag values are
space-escaped; folder id, peer/client id and device id tag values are
emitted verbatim.  The escaping replaces every space with
backslash-space and leaves space-free values unchanged. -/
theorem tag_escaping_amended :
    (∀ (folderConfig : FolderConfig) (stats : FolderStats),
        handleFolderStats folderConfig (.ok stats) =
          ([OutLine.folder folderConfig.id (escapeSpaces folderConfig.label)
              folderConfig.rescanIntervalS stats], [])) ∧
      (∀ (names : List (String × String)) (deviceId : String) (d : DeviceStatItem),
        deviceLine names deviceId d =
          OutLine.device deviceId (escapeSpaces (mapGetD names deviceId))
            (durSeconds (d.lastSeen - cutOffTime)) d.lastConnectionDurationS) ∧
      (∀ (clientId : String) (c : ConnectionStatItem),
        connectionLine clientId c =
          OutLine.connection clientId (if c.connected then 1 else 0)
            (if c.paused then 1 else 0) c.inBytesTotal c.outBytesTotal) ∧
      (∀ s : String, (∀ ch ∈ s.data, ch ≠ ' ') → escapeSpaces s = s) ∧
      (∀ s t : String, escapeSpaces (s ++ t) = escapeSpaces s ++ escapeSpaces t) ∧
      escapeSpaces " " = "\\ " := by
  refine ⟨fun _ _ => rfl, fun _ _ _ => rfl, fun _ _ => rfl, escapeSpaces_no_space,
    escapeSpaces_append, ?_⟩
  decide

/-- Witness for the amended C4: a space-free value passes through
escaping unchanged. -/
theorem tag_escaping_amended_witness : escapeSpaces "ab" = "ab" :=
  tag_escaping_amended.2.2.2.1 "ab" (by decide)

/-- wrapHandler does not change a handler's stdout. -/
theorem wrapHandler_stdout (r : HandlerResult) : (wrapHandler r).stdout = r.stdout := by
  unfold wrapHandler
  cases r.err <;> rfl

/-- A handler error reaches the wrapped handler's stderr with the
"Failed: " prefix, whatever the handler and whichever kind of error
(request or decode) produced it. -/
theorem wrapHandler_stderr_of_err (r : HandlerResult) (msg : String)
    (h : r.err = some msg) : ("Failed: " ++ msg) ∈ (wrapHandler r).stderr := by
  unfold wrapHandler
  rw [h]
  simp

/-- C5: an empty -apikey prints an error and exits 1 before any HTTP
call; any non-empty key exits 0 whatever the handlers' outcomes, and
every handler's returned error — request or decode, from any of the
folders, connections, devices or (when enabled) report handlers — is
written to stderr with the prefix "Failed: ". -/
theorem main_exit_behavior (apiKey : String) (useFullReport : Bool) (w : WorldOracle) :
    (mainRun "" useFullReport w).exitCode = 1 ∧
      (mainRun "" useFullReport w).calls = 0 ∧
      (mainRun "" useFullReport w).println = ["Invalid API key"] ∧
      (apiKey ≠ "" → (mainRun apiKey useFullReport w).exitCode = 0) ∧
      (apiKey ≠ "" → ∀ msg,
        ((handleFolders w.folders w.folderStatus).err = some msg ∨
          (handleSystemConnections w.systemConnections).err = some msg ∨
          (handleDevices w.deviceConfigs w.deviceStats).err = some msg ∨
          (useFullReport = true ∧ (handleReport w.report).err = some msg)) →
        ("Failed: " ++ msg) ∈ (mainRun apiKey useFullReport w).stderr) := by
  refine ⟨rfl, rfl, rfl, ?_, ?_⟩
  · intro h
    simp [mainRun, h]
  · intro h msg hcase
    cases useFullReport with
    | false =>
      rcases hcase with hf | hc | hd | ⟨hflag, _⟩
      · have hx := wrapHandler_stderr_of_err _ msg hf
        simp [mainRun, h, hx]
      · have hx := wrapHandler_stderr_of_err _ msg hc
        simp [mainRun, h, hx]
      · have hx := wrapHandler_stderr_of_err _ msg hd
        simp [mainRun, h, hx]
      · exact Bool.noConfusion hflag
    | true =>
      rcases hcase with hf | hc | hd | ⟨_, hr⟩
      · have hx := wrapHandler_stderr_of_err _ msg hf
        simp [mainRun, h, hx]
      · have hx := wrapHandler_stderr_of_err _ msg hc
        simp [mainRun, h, hx]
      · have hx := wrapHandler_stderr_of_err _ msg hd
        simp [mainRun, h, hx]
      · have hx := wrapHandler_stderr_of_err _ msg hr
        simp [mainRun, h, hx]

/-- Witness for C5: a run with a non-empty key and a failing connections
fetch exits 0 and reports that failure on stderr, and a run whose report
fetch fails reports that failure on stderr too. -/
theorem main_exit_behavior_witness :
    (mainRun "k" true exWorldConnFail).exitCode = 0 ∧
      ("Failed: " ++ "boom") ∈ (mainRun "k" true exWorldConnFail).stderr ∧
      ("Failed: " ++ "connection refused") ∈ (mainRun "k" true exWorldReportFail).stderr :=
  ⟨(main_exit_behavior "k" true exWorldConnFail).2.2.2.1 (by decide),
    (main_exit_behavior "k" true exWorldConnFail).2.2.2.2 (by decide) "boom"
      (Or.inr (Or.inl rfl)),
    (main_exit_behavior "k" true exWorldReportFail).2.2.2.2 (by decide) "connection refused"
      (Or.inr (Or.inr (Or.inr ⟨rfl, rfl⟩)))⟩

/-- Unfolding of makeRequest when request construction succeeds. -/
theorem makeRequest_none_eq (server apiKey path : String)
    (transportOf : HttpRequest → TransportOutcome) :
    makeRequest server apiKey path none transportOf =
      match transportOf (builtRequest server apiKey path) with
      | .failure err =>
        { result := .error ("HTTP request failed: " ++ err),
          sends := [(2 * timeSecond, builtRequest server apiKey path)] }
      | .success resp =>
        { result := .ok resp,
          sends := [(2 * timeSecond, builtRequest server apiKey path)] } := rfl

/-- C6: makeRequest performs no send when construction fails (returning
the construction error) and otherwise performs exactly one GET to
server/path carrying the X-API-Key header and a 2-second timeout, with
no retry; transport failure and success are returned as-is with distinct
wrapping. -/
theorem makeRequest_contract (server apiKey path e : String)
    (transportOf : HttpRequest → TransportOutcome) :
    ((makeRequest server apiKey path (some e) transportOf).result =
        .error ("unable to create HTTP request: " ++ e) ∧
      (makeRequest server apiKey path (some e) transportOf).sends = []) ∧
      (makeRequest server apiKey path none transportOf).sends =
        [(2 * timeSecond, builtRequest server apiKey path)] ∧
      builtRequest server apiKey path =
        { method := "GET", url := server ++ "/" ++ path, headers := [("X-API-Key", apiKey)] } ∧
      (∀ resp, transportOf (builtRequest server apiKey path) = .success resp →
        (makeRequest server apiKey path none transportOf).result = .ok resp) ∧
      (∀ msg, transportOf (builtRequest server apiKey path) = .failure msg →
        (makeRequest server apiKey path none transportOf).result =
          .error ("HTTP request failed: " ++ msg)) := by
  refine ⟨⟨rfl, rfl⟩, ?_, rfl, ?_, ?_⟩
  · rw [makeRequest_none_eq]
    cases transportOf (builtRequest server apiKey path) <;> rfl
  · intro resp h
    rw [makeRequest_none_eq, h]
  · intro msg h
    rw [makeRequest_none_eq, h]

/-- Witness for C6: against a concrete transport, one 403 response is
returned as success, and a concrete transport failure is wrapped. -/
theorem makeRequest_contract_witness :
    (makeRequest "http://localhost:8384" "k" "rest/system/connections" none exNetOk).result =
        .ok ⟨403, "body"⟩ ∧
      (makeRequest "http://localhost:8384" "k" "rest/system/connections" none exNetFail).result =
        .error ("HTTP request failed: " ++ "timeout") :=
  ⟨(makeRequest_contract "http://localhost:8384" "k" "rest/system/connections" "e"
      exNetOk).2.2.2.1 ⟨403, "body"⟩ rfl,
    (makeRequest_contract "http://localhost:8384" "k" "rest/system/connections" "e"
      exNetFail).2.2.2.2 "timeout" rfl⟩

/-- C9: when transport completes, makeRequest returns the response as
success whatever its HTTP status code, and the fetch-decode pipeline
hands exactly that response's body to the caller's JSON decoder. -/
theorem response_status_ignored {α : Type} (server apiKey path : String)
    (transportOf : HttpRequest → TransportOutcome) (decode : String → Except String α)
    (resp : HttpResponse)
    (h : transportOf (builtRequest server apiKey path) = .success resp) :
    (makeRequest server apiKey path none transportOf).result = .ok resp ∧
      fetchAndDecode server apiKey path none transportOf decode =
        (match decode resp.body with
         | .error e => FetchResult.decodeError e
         | .ok v => FetchResult.ok v) := by
  have h1 : (makeRequest server apiKey path none transportOf).result = .ok resp := by
    rw [makeRequest_none_eq, h]
  refine ⟨h1, ?_⟩
  unfold fetchAndDecode
  rw [h1]

/-- Witness for C9: a 403 response is returned as success and its body
reaches the decoder. -/
theorem response_status_ignored_witness :
    (makeRequest "http://localhost:8384" "k" "rest/stats/device" none exNetOk).result =
        .ok ⟨403, "body"⟩ ∧
      fetchAndDecode "http://localhost:8384" "k" "rest/stats/device" none exNetOk exDecode =
        .ok 4 :=
  ⟨(response_status_ignored "http://localhost:8384" "k" "rest/stats/device" exNetOk exDecode
      ⟨403, "body"⟩ rfl).1,
    ((response_status_ignored "http://localhost:8384" "k" "rest/stats/device" exNetOk exDecode
      ⟨403, "body"⟩ rfl).2).trans rfl⟩

/-- The connections handler never emits a syncthing_report line. -/
theorem handleSystemConnections_no_report (fetch : FetchResult Connections) :
    (handleSystemConnections fetch).stdout.countP isReportLine = 0 := by
  cases fetch with
  | reqError m => rfl
  | decodeError m => rfl
  | ok stats =>
    rw [handleSystemConnections_ok_stdout]
    refine List.countP_eq_zero.mpr ?_
    intro l hl
    rcases List.mem_cons.mp hl with h | h
    · rw [h]
      simp [isReportLine]
    · rcases List.mem_filterMap.mp h with ⟨p, _, hp⟩
      by_cases hat : cutOffTime < p.2.atTime
      · rw [if_pos hat] at hp
        rw [← Option.some.inj hp, connectionLine]
        simp [isReportLine]
      · rw [if_neg hat] at hp
        cases hp

/-- The devices handler never emits a syncthing_report line. -/
theorem handleDevices_no_report (fetchConfigs : FetchResult (List DeviceConfig))
    (fetchStats : FetchResult Devices) :
    (handleDevices fetchConfigs fetchStats).stdout.countP isReportLine = 0 := by
  cases fetchConfigs with
  | reqError m => rfl
  | decodeError m => rfl
  | ok cfgs =>
    cases fetchStats with
    | reqError m => rfl
    | decodeError m => rfl
    | ok stats =>
      rw [handleDevices_ok_stdout]
      refine List.countP_eq_zero.mpr ?_
      intro l hl
      rcases List.mem_cons.mp hl with h | h
      · rw [h]
        simp [isReportLine]
      · rcases List.mem_filterMap.mp h with ⟨p, _, hp⟩
        by_cases hls : cutOffTime < p.2.lastSeen
        · rw [if_pos hls] at hp
          rw [← Option.some.inj hp, deviceLine]
          simp [isReportLine]
        · rw [if_neg hls] at hp
          cases hp

/-- The folders handler never emits a syncthing_report line. -/
theorem handleFolders_no_report (fetchFolders : FetchResult (List FolderConfig))
    (statusFetch : Nat → FetchResult FolderStats) :
    (handleFolders fetchFolders statusFetch).stdout.countP isReportLine = 0 := by
  cases fetchFolders with
  | reqError m => rfl
  | decodeError m => rfl
  | ok folders =>
    have hstdout : (handleFolders (.ok folders) statusFetch).stdout =
        folders.enum.filterMap (fun p =>
          match statusFetch p.1 with
          | .ok stats => some (folderLine p.2 stats)
          | _ => none) := folderStats_flatten statusFetch folders.enum
    rw [hstdout]
    refine List.countP_eq_zero.mpr ?_
    intro l hl
    rcases List.mem_filterMap.mp hl with ⟨p, _, hp⟩
    cases hf : statusFetch p.1 with
    | reqError m => rw [hf] at hp; cases hp
    | decodeError m => rw [hf] at hp; cases hp
    | ok stats =>
      rw [hf] at hp
      rw [← Option.some.inj hp, folderLine]
      simp [isReportLine]

/-- The report handler emits exactly one syncthing_report line on
success and none on failure. -/
theorem handleReport_count (fetch : FetchResult Report) :
    (handleReport fetch).stdout.countP isReportLine =
      match fetch with
      | .ok _ => 1
      | _ => 0 := by
  cases fetch <;> rfl

/-- C7 counterexample: with -use-full-report present but the report
endpoint unreachable, the invocation emits no syncthing_report line
rather than exactly one. -/
theorem report_line_missing_on_failure :
    (mainRun "k" true exWorldReportFail).stdout.countP isReportLine = 0 ∧
      (mainRun "k" true exWorldReportFail).stdout.countP isReportLine ≠ 1 := by decide

/-- C7 (amended): without -use-full-report no syncthing_report line is
ever emitted; with it, at most one is emitted, and exactly one whenever
the API key is non-empty and the report fetch and decode succeed. -/
theorem report_line_count (apiKey : String) (useFullReport : Bool) (w : WorldOracle) :
    (mainRun apiKey false w).stdout.countP isReportLine = 0 ∧
      (mainRun apiKey useFullReport w).stdout.countP isReportLine ≤ 1 ∧
      (apiKey ≠ "" → ∀ stats, w.report = .ok stats →
        (mainRun apiKey true w).stdout.countP isReportLine = 1) := by
  by_cases hk : apiKey = ""
  · subst hk
    exact ⟨rfl, by simp [mainRun], fun h => absurd rfl h⟩
  · refine ⟨?_, ?_, ?_⟩
    · simp [mainRun, hk, wrapHandler_stdout, List.countP_append,
        handleFolders_no_report, handleSystemConnections_no_report, handleDevices_no_report]
    · cases useFullReport with
      | false =>
        simp [mainRun, hk, wrapHandler_stdout, List.countP_append,
          handleFolders_no_report, handleSystemConnections_no_report, handleDevices_no_report]
      | true =>
        simp only [mainRun, hk, if_false, List.map_cons, List.map_nil, List.flatten_cons,
          List.flatten_nil, List.countP_append, wrapHandler_stdout,
          handleFolders_no_report, handleSystemConnections_no_report, handleDevices_no_report,
          handleReport_count, if_true, List.map_append, List.append_nil, Bool.true_eq_false,
          ite_false]
        cases w.report <;> simp [mainRun, hk, wrapHandler_stdout, List.countP_append,
          handleFolders_no_report, handleSystemConnections_no_report, handleDevices_no_report,
          handleReport_count]
    · intro _ stats hrep
      simp [mainRun, hk, hrep, wrapHandler_stdout, List.countP_append,
        handleFolders_no_report, handleSystemConnections_no_report, handleDevices_no_report,
        handleReport_count]

/-- Witness for the amended C7: a concrete run with the flag set and a
successful report fetch emits exactly one syncthing_report line. -/
theorem report_line_count_witness :
    (mainRun "k" true exWorld).stdout.countP isReportLine = 1 :=
  (report_line_count "k" true exWorld).2.2 (by decide) exReport rfl
